import Mathlib

/-
Verification of the OAuth authorization/session/token subsystem of the
youtube-music-mcp-server repository, as a shallow embedding in Lean 4.

The embedding follows the Python source:
  * src/oauth_handler.py                          (OAuthHandler.generate_pkce)
  * src/ytmusic_server/auth/oauth_endpoints.py    (OAuthEndpoints.authorize / token)
  * src/ytmusic_server/middleware/oauth_middleware.py (OAuthMiddleware.dispatch)
  * src/ytmusic_server/server.py                  (_validate_session_and_token)

Conventions: Python `str` is Lean `String`; optional form/query parameters
are `Option String` (Python `dict.get` returning `None` when absent);
Python truthiness of an optional string is `truthy` below; `time.time()`
is modelled as a `Nat` parameter `now` (only its ordering is used);
bytes are `List Nat` with values below 256; the in-memory Python dicts
are association lists where insertion prepends and lookup takes the
newest binding, which matches dict overwrite semantics for the
operations used here (membership, get, set).
-/

namespace YTM

/-- Python truthiness of an optional string: `None` and `""` are falsy. -/
def truthy : Option String → Bool
  | none => false
  | some s => s ≠ ""

/-- Python f-string rendering of an optional string: `None` prints as "None". -/
def pyFStr : Option String → String
  | none => "None"
  | some s => s

/-- Lookup in an association list keyed by strings (Python `d[k]` / `k in d`). -/
def lookupStr {α : Type} : List (String × α) → String → Option α
  | [], _ => none
  | (k, v) :: rest, key => if k = key then some v else lookupStr rest key

/-- Insertion into an association list (Python `d[k] = v`): prepend; `lookupStr`
takes the newest binding, so this models dict overwrite. -/
def insertStr {α : Type} (m : List (String × α)) (k : String) (v : α) : List (String × α) :=
  (k, v) :: m

/- ## SHA-256 (embedding of Python `hashlib.sha256(...).digest()`)

A direct executable implementation of FIPS 180-4 SHA-256 over byte lists,
with 32-bit words represented as `Nat` reduced modulo `2^32`. -/

/-- Reduce to a 32-bit word. -/
def w32 (x : Nat) : Nat := x % 4294967296

/-- Right rotation of a 32-bit word. -/
def rotr (n x : Nat) : Nat := w32 ((x >>> n) ||| (x <<< (32 - n)))

/-- 32-bit bitwise complement. -/
def compl32 (x : Nat) : Nat := x ^^^ 4294967295

def ch32 (e f g : Nat) : Nat := (e &&& f) ^^^ (compl32 e &&& g)

def maj32 (a b c : Nat) : Nat := (a &&& b) ^^^ (a &&& c) ^^^ (b &&& c)

def bigSigma0 (x : Nat) : Nat := rotr 2 x ^^^ rotr 13 x ^^^ rotr 22 x

def bigSigma1 (x : Nat) : Nat := rotr 6 x ^^^ rotr 11 x ^^^ rotr 25 x

def smallSigma0 (x : Nat) : Nat := rotr 7 x ^^^ rotr 18 x ^^^ (x >>> 3)

def smallSigma1 (x : Nat) : Nat := rotr 17 x ^^^ rotr 19 x ^^^ (x >>> 10)

/-- The 64 SHA-256 round constants. -/
def sha256K : List Nat :=
  [1116352408, 1899447441, 3049323471, 3921009573, 961987163,
   1508970993, 2453635748, 2870763221, 3624381080, 310598401,
   607225278, 1426881987, 1925078388, 2162078206, 2614888103,
   3248222580, 3835390401, 4022224774, 264347078, 604807628,
   770255983, 1249150122, 1555081692, 1996064986, 2554220882,
   2821834349, 2952996808, 3210313671, 3336571891, 3584528711,
   113926993, 338241895, 666307205, 773529912, 1294757372,
   1396182291, 1695183700, 1986661051, 2177026350, 2456956037,
   2730485921, 2820302411, 3259730800, 3345764771, 3516065817,
   3600352804, 4094571909, 275423344, 430227734, 506948616,
   659060556, 883997877, 958139571, 1322822218, 1537002063,
   1747873779, 1955562222, 2024104815, 2227730452, 2361852424,
   2428436474, 2756734187, 3204031479, 3329325298]

/-- The SHA-256 initial hash value. -/
def sha256H0 : List Nat :=
  [1779033703, 3144134277, 1013904242, 2773480762, 1359893119,
   2600822924, 528734635, 1541459225]

/-- Big-endian bytes of a 64-bit length value. -/
def toBE64 (n : Nat) : List Nat :=
  [w32 (n >>> 56) % 256, (n >>> 48) % 256, (n >>> 40) % 256, (n >>> 32) % 256,
   (n >>> 24) % 256, (n >>> 16) % 256, (n >>> 8) % 256, n % 256]

/-- Big-endian bytes of a 32-bit word. -/
def wordToBytesBE (x : Nat) : List Nat :=
  [(x >>> 24) % 256, (x >>> 16) % 256, (x >>> 8) % 256, x % 256]

/-- Pack bytes into big-endian 32-bit words (input length a multiple of 4). -/
def bytesToWordsBE : List Nat → List Nat
  | b0 :: b1 :: b2 :: b3 :: rest =>
      (b0 <<< 24 ||| b1 <<< 16 ||| b2 <<< 8 ||| b3) :: bytesToWordsBE rest
  | _ => []

/-- SHA-256 message padding: append 0x80, zeros to 56 mod 64, then the
big-endian 64-bit bit-length. -/
def padMessage (msg : List Nat) : List Nat :=
  let L := msg.length
  let k := (119 - L % 64) % 64
  msg ++ [0x80] ++ List.replicate k 0 ++ toBE64 (L * 8)

/-- Split a byte list into 64-byte blocks (fuel-based structural recursion so
that the kernel can evaluate it; `l.length` steps always suffice because each
step consumes at least one element of a nonempty list). -/
def chunk64Go : Nat → List Nat → List (List Nat)
  | 0, _ => []
  | _, [] => []
  | fuel+1, l => l.take 64 :: chunk64Go fuel (l.drop 64)

/-- Split a byte list into 64-byte blocks. -/
def chunk64 (l : List Nat) : List (List Nat) := chunk64Go l.length l

/-- Extend the 16 message words to the 64-entry schedule (48 extension steps). -/
def extendSchedule : Nat → List Nat → List Nat
  | 0, ws => ws
  | n+1, ws =>
      let t := ws.length
      let wt := w32 (smallSigma1 (ws.getD (t-2) 0) + ws.getD (t-7) 0 +
                     smallSigma0 (ws.getD (t-15) 0) + ws.getD (t-16) 0)
      extendSchedule n (ws ++ [wt])

/-- One SHA-256 compression round on the eight-word working state. -/
def sha256Round (state : List Nat) (kw : Nat × Nat) : List Nat :=
  match state with
  | [a, b, c, d, e, f, g, h] =>
      let t1 := w32 (h + bigSigma1 e + ch32 e f g + kw.1 + kw.2)
      let t2 := w32 (bigSigma0 a + maj32 a b c)
      [w32 (t1 + t2), a, b, c, w32 (d + t1), e, f, g]
  | other => other

/-- Process one 64-byte block. -/
def sha256Block (h : List Nat) (block : List Nat) : List Nat :=
  let ws := extendSchedule 48 (bytesToWordsBE block)
  let final := (sha256K.zip ws).foldl sha256Round h
  (h.zip final).map (fun p => w32 (p.1 + p.2))

/-- SHA-256 digest of a byte list, as 32 bytes. -/
def sha256 (msg : List Nat) : List Nat :=
  ((chunk64 (padMessage msg)).foldl sha256Block sha256H0).map wordToBytesBE |>.flatten

/- ## URL-safe base64 without padding
(embedding of Python `base64.urlsafe_b64encode(b).decode().rstrip("=")`) -/

/-- The URL-safe base64 alphabet. -/
def b64urlAlphabet : List Char :=
  "ABCDEFGHIJKLMNOPQRSTUVWXYZabcdefghijklmnopqrstuvwxyz0123456789-_".data

def b64Char (n : Nat) : Char := b64urlAlphabet.getD n 'A'

/-- URL-safe base64 encoding of bytes with the `=` padding stripped,
exactly the characters that survive `rstrip("=")`. -/
def b64urlNoPad : List Nat → List Char
  | [] => []
  | [b1] => [b64Char (b1 >>> 2), b64Char ((b1 % 4) <<< 4)]
  | [b1, b2] => [b64Char (b1 >>> 2), b64Char (((b1 % 4) <<< 4) ||| (b2 >>> 4)),
                 b64Char ((b2 % 16) <<< 2)]
  | b1 :: b2 :: b3 :: rest =>
      b64Char (b1 >>> 2) :: b64Char (((b1 % 4) <<< 4) ||| (b2 >>> 4)) ::
      b64Char (((b2 % 16) <<< 2) ||| (b3 >>> 6)) :: b64Char (b3 % 64) :: b64urlNoPad rest

def b64urlNoPadStr (bs : List Nat) : String := String.mk (b64urlNoPad bs)

/-- Bytes of an ASCII string (Python `s.encode()`; the strings hashed here are
base64url output, hence pure ASCII, where UTF-8 bytes equal code points). -/
def asciiBytes (s : String) : List Nat := s.data.map Char.toNat

/- ## PKCE generator (src/oauth_handler.py, OAuthHandler.generate_pkce)

The Python function draws `secrets.token_bytes(32)`; the randomness is the
explicit `randomBytes` argument here. -/

/-- Embedding of `OAuthHandler.generate_pkce`: the verifier is the unpadded
URL-safe base64 of the random bytes, the challenge the unpadded URL-safe
base64 of the SHA-256 digest of the verifier's bytes. -/
def generate_pkce (randomBytes : List Nat) : String × String :=
  let code_verifier := b64urlNoPadStr randomBytes
  let challenge_bytes := sha256 (asciiBytes code_verifier)
  let code_challenge := b64urlNoPadStr challenge_bytes
  (code_verifier, code_challenge)

/-- Sanity check of the SHA-256 embedding against the FIPS 180-4 test vector
for the message "abc". -/
theorem sha256_abc_vector :
    sha256 (asciiBytes "abc") =
      [186, 120, 22, 191, 143, 1, 207, 234, 65, 65,
       64, 222, 93, 174, 34, 35, 176, 3, 97, 163,
       150, 23, 122, 156, 180, 16, 255, 97, 242, 0,
       21, 173] := by
  decide

/- ## OAuth endpoint state (src/ytmusic_server/auth/oauth_endpoints.py)

`OAuthEndpoints` keeps three in-memory dicts: `clients`,
`authorization_codes`, `access_tokens`. Only the fields the verified
endpoints read are embedded for client records; the code and token records
are embedded in full. -/

/-- A registered client (`self.clients[client_id]`): the endpoints under
verification read only `client_secret`; `redirect_uris` is carried to state
that `authorize` never consults it. -/
structure ClientRecord where
  client_secret : String
  redirect_uris : List String
deriving DecidableEq

/-- An authorization code record (`self.authorization_codes[code]`). -/
structure AuthCodeData where
  client_id : String
  redirect_uri : Option String
  scope : String
  code_challenge : String
  user_id : String
  expires_at : Nat
  used : Bool
deriving DecidableEq

/-- An access token record (`self.access_tokens[access_token]`). -/
structure AccessTokenData where
  client_id : String
  user_id : String
  scope : String
  expires_at : Nat
  refresh_token : String
deriving DecidableEq

/-- The mutable state of `OAuthEndpoints`. -/
structure OAuthState where
  clients : List (String × ClientRecord)
  authorization_codes : List (String × AuthCodeData)
  access_tokens : List (String × AccessTokenData)
deriving DecidableEq

/-- Result of the authorize endpoint: a `RedirectResponse` or a JSON error
body with its HTTP status. -/
inductive AuthorizeResult where
  | redirect (url : String)
  | jsonError (error : String) (status : Nat)
deriving DecidableEq

/-- `&state=...` suffix appended when `state` is truthy. -/
def stateSuffix (stateP : Option String) : String :=
  if truthy stateP then "&state=" ++ stateP.getD "" else ""

/-- Embedding of `OAuthEndpoints._error_response`. -/
def error_response (error : String) (redirect_uri stateP : Option String) : AuthorizeResult :=
  if truthy redirect_uri then
    .redirect (redirect_uri.getD "" ++ "?error=" ++ error ++ stateSuffix stateP)
  else
    .jsonError error 400

/-- Embedding of `OAuthEndpoints.authorize` (GET /oauth/authorize).
`freshCode` stands for the random `secrets.token_urlsafe(32)` draw. Note that
the client check is pure membership (`client_id not in self.clients`); the
client record is never read. -/
def authorize (st : OAuthState) (now : Nat) (freshCode : String)
    (client_id redirect_uri response_type scopeP stateP
     code_challenge code_challenge_method : Option String) :
    AuthorizeResult × OAuthState :=
  if !truthy client_id || (lookupStr st.clients (client_id.getD "")).isNone then
    (error_response "invalid_client" redirect_uri stateP, st)
  else if response_type ≠ some "code" then
    (error_response "unsupported_response_type" redirect_uri stateP, st)
  else if !truthy code_challenge || code_challenge_method ≠ some "S256" then
    (error_response "invalid_request" redirect_uri stateP, st)
  else
    let code := "code_" ++ freshCode
    let record : AuthCodeData :=
      { client_id := client_id.getD "", redirect_uri := redirect_uri,
        scope := scopeP.getD "mcp:tools", code_challenge := code_challenge.getD "",
        user_id := "user123", expires_at := now + 600, used := false }
    let callback := pyFStr redirect_uri ++ "?code=" ++ code ++ stateSuffix stateP
    (.redirect callback,
     { st with authorization_codes := insertStr st.authorization_codes code record })

/-- Success body of the token endpoint. -/
structure TokenSuccess where
  access_token : String
  token_type : String
  expires_in : Nat
  refresh_token : String
  scope : String
deriving DecidableEq

/-- Result of the token endpoint: a 200 JSON success body or a JSON error
body with its HTTP status. -/
inductive TokenResult where
  | ok (body : TokenSuccess)
  | err (error : String) (status : Nat)
deriving DecidableEq

/-- Embedding of `OAuthEndpoints.token` (POST /oauth/token). `aR` and `rR`
stand for the two random `secrets.token_urlsafe(32)` draws used to mint the
access and refresh tokens. The form fields `redirect_uri` and
`code_verifier` are bound but never read by the Python code (the PKCE check
is a TODO there), which the unused arguments mirror. -/
def token (st : OAuthState) (now : Nat) (aR rR : String)
    (grant_type code client_id client_secret redirect_uri code_verifier : Option String) :
    TokenResult × OAuthState :=
  if grant_type ≠ some "authorization_code" then
    (.err "unsupported_grant_type" 400, st)
  else if !truthy client_id then
    (.err "invalid_client" 401, st)
  else
    match lookupStr st.clients (client_id.getD "") with
    | none => (.err "invalid_client" 401, st)
    | some cl =>
      if client_secret ≠ some cl.client_secret then
        (.err "invalid_client" 401, st)
      else if !truthy code then
        (.err "invalid_grant" 400, st)
      else
        match lookupStr st.authorization_codes (code.getD "") with
        | none => (.err "invalid_grant" 400, st)
        | some cd =>
          if cd.used || decide (now > cd.expires_at) then
            (.err "invalid_grant" 400, st)
          else if cd.client_id ≠ client_id.getD "" then
            (.err "invalid_grant" 400, st)
          else
            let access := "mcp_" ++ aR
            let refresh := "refresh_" ++ rR
            let codes2 := insertStr st.authorization_codes (code.getD "") { cd with used := true }
            let tokens2 := insertStr st.access_tokens access
              { client_id := client_id.getD "", user_id := cd.user_id, scope := cd.scope,
                expires_at := now + 3600, refresh_token := refresh }
            (.ok { access_token := access, token_type := "Bearer", expires_in := 3600,
                   refresh_token := refresh, scope := cd.scope },
             { st with authorization_codes := codes2, access_tokens := tokens2 })

/- ## Request gate middleware (src/ytmusic_server/middleware/oauth_middleware.py) -/

/-- The middleware's fixed allow-list of unauthenticated paths. -/
def public_paths : List String :=
  ["/.well-known/oauth-protected-resource",
   "/.well-known/oauth-authorization-server",
   "/.well-known/jwks.json",
   "/health",
   "/oauth/authorize",
   "/oauth/token",
   "/oauth/register",
   "/oauth/introspect",
   "/oauth/revoke"]

/-- ASCII whitespace recognised by the regex class used in
`_extract_bearer_token` (HTTP header values stay in this range). -/
def isPySpace (c : Char) : Bool :=
  c = ' ' || c = '\t' || c = '\n' || c = '\r' || c = '\x0b' || c = '\x0c'

/-- Backtracking search for the regex tail: with the scheme consumed and `r`
the remainder, try whitespace-run lengths `n, n-1, ..., 1`; the dot-plus
group then needs a following character other than a newline and captures the
maximal newline-free run from there. -/
def bearerSearch : Nat → List Char → Option (List Char)
  | 0, _ => none
  | i+1, r =>
      match r.drop (i+1) with
      | [] => bearerSearch i r
      | c :: rest2 =>
          if c = '\n' then bearerSearch i r
          else some ((c :: rest2).takeWhile (fun d => d ≠ '\n'))

/-- Embedding of `OAuthMiddleware._extract_bearer_token`: `None` on an empty
header, else the group captured by matching the header against
case-insensitive `Bearer`, one or more whitespace characters, and a nonempty
newline-free token group. -/
def extract_bearer_token (h : String) : Option String :=
  if h = "" then none
  else
    let cs := h.data
    if (cs.take 6).map Char.toLower = "bearer".data ∧ 6 ≤ cs.length then
      let r := cs.drop 6
      match bearerSearch (r.takeWhile isPySpace).length r with
      | none => none
      | some g => some (String.mk g)
    else none

/-- The identity attached to the request by `_validate_token` on success. -/
structure TokenInfo where
  sub : String
  scope : String
  exp : Nat
  iss : String
  aud : String
deriving DecidableEq

/-- Python `s.startswith(p)`, computed on character lists. -/
def strStarts (s p : String) : Bool := s.data.take p.data.length == p.data

/-- Embedding of `OAuthMiddleware._validate_token`: the development
placeholder accepts any token with the `mcp_` prefix and attaches a
hardcoded identity; it consults no token store. -/
def validate_token (auth_server_url server_url tok : String) : Option TokenInfo :=
  if strStarts tok "mcp_" then
    some { sub := "user123", scope := "mcp:tools youtube:readonly",
           exp := 9999999999, iss := auth_server_url, aud := server_url }
  else none

/-- The 401 response built by `OAuthMiddleware._unauthorized_response`. -/
structure UnauthorizedResponse where
  status : Nat
  wwwAuthenticate : String
  bodyError : String
  bodyDescription : String
deriving DecidableEq

def unauthorized_response (server_url error : String) : UnauthorizedResponse :=
  { status := 401,
    wwwAuthenticate := "Bearer realm=\"youtube-music\", resource_metadata=\"" ++
      server_url ++ "/.well-known/oauth-protected-resource\", error=\"" ++ error ++ "\"",
    bodyError := "unauthorized",
    bodyDescription := "Authentication required: " ++ error }

/-- Outcome of `OAuthMiddleware.dispatch`: pass through on a public path,
invoke the downstream handler with attached token info, or reject without
invoking it. -/
inductive DispatchResult where
  | passthrough
  | handled (info : TokenInfo)
  | reject (r : UnauthorizedResponse)
deriving DecidableEq

/-- Embedding of `OAuthMiddleware.dispatch`. `authHeader` is
`request.headers.get("authorization", "")`, so an absent header arrives as
the empty string. -/
def dispatch (server_url auth_server_url path authHeader : String) : DispatchResult :=
  if path ∈ public_paths then .passthrough
  else
    match extract_bearer_token authHeader with
    | none => .reject (unauthorized_response server_url "missing_token")
    | some tok =>
        match validate_token auth_server_url server_url tok with
        | none => .reject (unauthorized_response server_url "invalid_token")
        | some info => .handled info

/- ## Session validation (src/ytmusic_server/server.py, _validate_session_and_token)

The function's own logic is embedded from the source. Its collaborators
(models.auth.UserSession / OAuthToken, SessionManager, OAuthManager) are
repository modules absent from the provided sources, so they are modelled
from the spec. -/

/-- Modelled from the spec: the bound upstream credential
(`models.auth.OAuthToken`, absent from the provided sources) —
`{access_token, refresh_token?, expires_at, scope}`. -/
structure OAuthToken where
  access_token : String
  refresh_token : Option String
  expires_at : Nat
  scope : String
deriving DecidableEq

/-- Modelled from the spec: `OAuthToken.is_expired` holds when the
credential's `expires_at` has passed. -/
def tokenIsExpired (tok : OAuthToken) (now : Nat) : Bool :=
  decide (now > tok.expires_at)

/-- Modelled from the spec: a client-facing session
(`models.auth.UserSession`, absent from the provided sources) —
`{session_id, is_authenticated, oauth_token?}`. -/
structure UserSession where
  session_id : String
  is_authenticated : Bool
  oauth_token : Option OAuthToken
deriving DecidableEq

/-- The error messages raised by `_validate_session_and_token`. -/
inductive SessionError where
  | sessionIdRequired
  | sessionNotFound
  | notAuthenticated
  | noOAuthToken
  | refreshFailed
  | tokenExpired
deriving DecidableEq

/-- Embedding of `YouTubeMusicMCPServer._validate_session_and_token`.
The session map models `SessionManager.get_session` / `update_session` as
lookup and insert (modelled from the spec); `refresh` is the OAuth engine's
refresh call, abstracted as an oracle that returns the new token or `none`
when the call raises. The third component of the result records the tokens
passed to `refresh`, making the number of refresh attempts explicit. -/
def validate_session_and_token (sessions : List (String × UserSession))
    (refresh : OAuthToken → Option OAuthToken) (now : Nat) (session_id : Option String) :
    Except SessionError (UserSession × OAuthToken) ×
      List (String × UserSession) × List OAuthToken :=
  if !truthy session_id then (.error .sessionIdRequired, sessions, [])
  else
    let sid := session_id.getD ""
    match lookupStr sessions sid with
    | none => (.error .sessionNotFound, sessions, [])
    | some s =>
      if !s.is_authenticated then (.error .notAuthenticated, sessions, [])
      else
        match s.oauth_token with
        | none => (.error .noOAuthToken, sessions, [])
        | some tok =>
          if tokenIsExpired tok now then
            match tok.refresh_token with
            | some _ =>
                match refresh tok with
                | some newTok =>
                    let s2 := { s with oauth_token := some newTok }
                    (.ok (s2, newTok), insertStr sessions sid s2, [tok])
                | none => (.error .refreshFailed, sessions, [tok])
            | none => (.error .tokenExpired, sessions, [])
          else (.ok (s, tok), sessions, [])

/- ## Shared lemmas -/

theorem lookupStr_insertStr {α : Type} (m : List (String × α)) (k : String) (v : α) :
    lookupStr (insertStr m k v) k = some v := by
  simp [insertStr, lookupStr]

theorem appendMerge2 (x a b ab : String) (h : a ++ b = ab) : x ++ a ++ b = x ++ ab := by
  rw [← h, String.append_assoc]

theorem appendMerge3 (x a b c abc : String) (h : a ++ (b ++ c) = abc) :
    x ++ a ++ b ++ c = x ++ abc := by
  rw [← h, String.append_assoc (x ++ a) b c, String.append_assoc x a (b ++ c)]

/- ## Claims -/

/-- C8: every (verifier, challenge) pair returned by the PKCE generator has
challenge = URL-safe unpadded base64 of the SHA-256 digest of the verifier's
ASCII bytes, and verifier = URL-safe unpadded base64 of the 32 random input
bytes; the generator is a total pure function (no side effects, no failure
modes). -/
theorem c8_pkce_generator (randomBytes : List Nat) (hlen : randomBytes.length = 32) :
    (generate_pkce randomBytes).1 = b64urlNoPadStr randomBytes ∧
    (generate_pkce randomBytes).2 =
      b64urlNoPadStr (sha256 (asciiBytes (generate_pkce randomBytes).1)) :=
  ⟨rfl, rfl⟩

theorem c8_pkce_generator_witness :
    (List.replicate 32 7).length = 32 ∧
    ((generate_pkce (List.replicate 32 7)).1 = b64urlNoPadStr (List.replicate 32 7) ∧
     (generate_pkce (List.replicate 32 7)).2 =
       b64urlNoPadStr (sha256 (asciiBytes (generate_pkce (List.replicate 32 7)).1))) :=
  ⟨by decide, c8_pkce_generator (List.replicate 32 7) (by decide)⟩

/-- C2: evaluation at a failing input. The stored code challenge is
"STOREDCHALLENGE", the supplied verifier "wrong-verifier" does not hash to
it, yet the token endpoint issues tokens: the PKCE check is absent from the
code (a TODO in the source), contradicting the spec's requirement to treat a
mismatch as invalid_grant. -/
theorem c2_pkce_mismatch_still_issues_tokens :
    b64urlNoPadStr (sha256 (asciiBytes "wrong-verifier")) ≠ "STOREDCHALLENGE" ∧
    (token
        { clients := [("c1", { client_secret := "s1",
                               redirect_uris := ["https://client.example/cb"] })],
          authorization_codes := [("code_k",
            { client_id := "c1", redirect_uri := some "https://client.example/cb",
              scope := "mcp:tools", code_challenge := "STOREDCHALLENGE",
              user_id := "user123", expires_at := 1000, used := false })],
          access_tokens := [] }
        10 "A" "R" (some "authorization_code") (some "code_k") (some "c1") (some "s1")
        (some "https://client.example/cb") (some "wrong-verifier")).1 =
      TokenResult.ok { access_token := "mcp_A", token_type := "Bearer", expires_in := 3600,
                       refresh_token := "refresh_R", scope := "mcp:tools" } := by
  exact ⟨by decide, by decide⟩

/-- C3: evaluation at a failing input. On the protected path "/mcp", the
request gate accepts the bearer token "mcp_forged" — present in no access
token store (the middleware consults none; its validator is a placeholder
accepting any token with the mcp_ prefix) — and invokes the downstream
handler with a hardcoded identity, instead of rejecting with 401
invalid_token as the claim requires. -/
theorem c3_gate_accepts_unknown_token :
    dispatch "https://server.example" "https://server.example/oauth" "/mcp" "Bearer mcp_forged" =
      DispatchResult.handled
        { sub := "user123", scope := "mcp:tools youtube:readonly", exp := 9999999999,
          iss := "https://server.example/oauth", aud := "https://server.example" } := by
  decide

/-- C7: evaluation at a failing input. With a known refresh token
"refresh_known" in the access-token store, a POST /oauth/token request with
grant_type=refresh_token is rejected with unsupported_grant_type (400) and
the state is unchanged: the token endpoint only implements the
authorization_code grant, contradicting the refresh flow that the server's
own metadata advertises. -/
theorem c7_refresh_grant_rejected :
    token
        { clients := [("c1", { client_secret := "s1", redirect_uris := [] })],
          authorization_codes := [],
          access_tokens := [("mcp_old",
            { client_id := "c1", user_id := "user123", scope := "mcp:tools",
              expires_at := 5000, refresh_token := "refresh_known" })] }
        10 "A" "R" (some "refresh_token") none (some "c1") (some "s1") none none =
      (TokenResult.err "unsupported_grant_type" 400,
       { clients := [("c1", { client_secret := "s1", redirect_uris := [] })],
         authorization_codes := [],
         access_tokens := [("mcp_old",
           { client_id := "c1", user_id := "user123", scope := "mcp:tools",
             expires_at := 5000, refresh_token := "refresh_known" })] }) := by
  decide

/-- C9: on a path outside the public allow-list, an absent authorization
header (delivered as the empty string) or one that does not match the
case-insensitive Bearer form yields a 401 response with a WWW-Authenticate
header Bearer realm=..., resource_metadata="<discovery URL>",
error="missing_token", and the downstream handler is not invoked. -/
theorem c9_missing_token_challenge (surl aurl path hdr : String)
    (hpub : path ∉ public_paths) (hex : extract_bearer_token hdr = none) :
    extract_bearer_token "" = none ∧
    dispatch surl aurl path hdr =
      DispatchResult.reject
        { status := 401,
          wwwAuthenticate := "Bearer realm=\"youtube-music\", resource_metadata=\"" ++ surl ++
            "/.well-known/oauth-protected-resource\", error=\"missing_token\"",
          bodyError := "unauthorized",
          bodyDescription := "Authentication required: missing_token" } := by
  refine ⟨rfl, ?_⟩
  simp only [dispatch, hpub, hex, unauthorized_response, if_neg]
  split
  · exact False.elim (by assumption)
  · refine congrArg DispatchResult.reject ?_
    refine congrArg (fun w => UnauthorizedResponse.mk 401 w "unauthorized"
      "Authentication required: missing_token") ?_
    exact appendMerge3 _ _ _ _ _ (by decide)

theorem c9_missing_token_challenge_witness :
    ("/mcp" ∉ public_paths) ∧ extract_bearer_token "Token abc" = none ∧
    (extract_bearer_token "" = none ∧
     dispatch "https://s.example" "https://s.example/oauth" "/mcp" "Token abc" =
       DispatchResult.reject
         { status := 401,
           wwwAuthenticate := "Bearer realm=\"youtube-music\", resource_metadata=\"" ++
             "https://s.example" ++
             "/.well-known/oauth-protected-resource\", error=\"missing_token\"",
           bodyError := "unauthorized",
           bodyDescription := "Authentication required: missing_token" }) :=
  ⟨by decide, by decide,
   c9_missing_token_challenge "https://s.example" "https://s.example/oauth" "/mcp" "Token abc"
     (by decide) (by decide)⟩

/-- C10: a GET /oauth/authorize request carrying a redirect_uri together with
a missing or unknown client_id is answered with a redirect to that
caller-supplied redirect_uri carrying error=invalid_client plus the echoed
state, leaving the state unchanged; and on every authorize path the supplied
redirect_uri is never compared against the client's registered
redirect_uris — the endpoint's behaviour depends on the client registry only
through key membership, so it is invariant under arbitrary changes to the
registered records, redirect_uris included. -/
theorem c10_invalid_client_redirect_and_no_uri_check
    (st : OAuthState) (now : Nat) (freshCode : String)
    (client_id redirect_uri response_type scopeP stateP chal meth : Option String) :
    (truthy redirect_uri = true →
      (!truthy client_id || (lookupStr st.clients (client_id.getD "")).isNone) = true →
      authorize st now freshCode client_id redirect_uri response_type scopeP stateP chal meth =
        (.redirect (redirect_uri.getD "" ++ "?error=invalid_client" ++ stateSuffix stateP), st))
    ∧ ∀ clients2 : List (String × ClientRecord),
        (∀ k, (lookupStr st.clients k).isSome = (lookupStr clients2 k).isSome) →
        (authorize st now freshCode client_id redirect_uri response_type scopeP stateP
            chal meth).1 =
          (authorize { st with clients := clients2 } now freshCode client_id redirect_uri
            response_type scopeP stateP chal meth).1 ∧
        (authorize st now freshCode client_id redirect_uri response_type scopeP stateP
            chal meth).2.authorization_codes =
          (authorize { st with clients := clients2 } now freshCode client_id redirect_uri
            response_type scopeP stateP chal meth).2.authorization_codes := by
  constructor
  · intro hru hbad
    simp only [authorize, hbad, error_response, hru, if_pos, if_true]
    refine Prod.ext ?_ rfl
    refine congrArg AuthorizeResult.redirect ?_
    refine congrArg (fun w => w ++ stateSuffix stateP) ?_
    exact appendMerge2 _ _ _ _ (by decide)
  · intro clients2 hkeys
    have hsame : (lookupStr st.clients (client_id.getD "")).isNone =
        (lookupStr clients2 (client_id.getD "")).isNone := by
      have := hkeys (client_id.getD "")
      cases hx : lookupStr st.clients (client_id.getD "") <;>
        cases hy : lookupStr clients2 (client_id.getD "") <;>
          simp_all
    simp only [authorize, hsame]
    split <;> [skip; split <;> [skip; split]] <;> simp

theorem c10_invalid_client_redirect_witness :
    (truthy (some "https://client.example/cb") = true) ∧
    ((!truthy (some "ghost") ||
      (lookupStr (α := ClientRecord) [] ("ghost")).isNone) = true) ∧
    authorize { clients := [], authorization_codes := [], access_tokens := [] }
        50 "F" (some "ghost") (some "https://client.example/cb") (some "code") none
        (some "xyz") (some "chal") (some "S256") =
      (.redirect ("https://client.example/cb" ++ "?error=invalid_client" ++
          stateSuffix (some "xyz")),
       { clients := [], authorization_codes := [], access_tokens := [] }) :=
  ⟨by decide, by decide,
   (c10_invalid_client_redirect_and_no_uri_check
      { clients := [], authorization_codes := [], access_tokens := [] }
      50 "F" (some "ghost") (some "https://client.example/cb") (some "code") none
      (some "xyz") (some "chal") (some "S256")).1 (by decide) (by decide)⟩

/-- C5: GET /oauth/authorize fails invalid_client when the client_id is
missing or unknown, unsupported_response_type when response_type is not
"code", invalid_request when the code challenge is missing or the method is
not S256; otherwise it stores a fresh code record (used=false, expiry
now+600s, bound to the client, redirect_uri, scope and challenge) and
redirects to redirect_uri with the code and the echoed state. -/
theorem c5_authorize_characterization
    (st : OAuthState) (now : Nat) (freshCode : String)
    (cid ruri rtype scopeP stateP chal meth : Option String) :
    ((!truthy cid || (lookupStr st.clients (cid.getD "")).isNone) = true →
       authorize st now freshCode cid ruri rtype scopeP stateP chal meth =
         (error_response "invalid_client" ruri stateP, st))
    ∧ (truthy cid = true → (lookupStr st.clients (cid.getD "")).isSome = true →
       rtype ≠ some "code" →
       authorize st now freshCode cid ruri rtype scopeP stateP chal meth =
         (error_response "unsupported_response_type" ruri stateP, st))
    ∧ (truthy cid = true → (lookupStr st.clients (cid.getD "")).isSome = true →
       rtype = some "code" → (!truthy chal || decide (meth ≠ some "S256")) = true →
       authorize st now freshCode cid ruri rtype scopeP stateP chal meth =
         (error_response "invalid_request" ruri stateP, st))
    ∧ (truthy cid = true → (lookupStr st.clients (cid.getD "")).isSome = true →
       rtype = some "code" → truthy chal = true → meth = some "S256" →
       authorize st now freshCode cid ruri rtype scopeP stateP chal meth =
         (.redirect (pyFStr ruri ++ "?code=" ++ ("code_" ++ freshCode) ++ stateSuffix stateP),
          { st with authorization_codes := (insertStr st.authorization_codes
              ("code_" ++ freshCode)
              { client_id := cid.getD "", redirect_uri := ruri,
                scope := scopeP.getD "mcp:tools", code_challenge := chal.getD "",
                user_id := "user123", expires_at := now + 600, used := false }) })) := by
  have hnone : (lookupStr st.clients (cid.getD "")).isSome = true →
      (lookupStr st.clients (cid.getD "")).isNone = false := by
    cases hx : lookupStr st.clients (cid.getD "") <;> simp
  refine ⟨?_, ?_, ?_, ?_⟩
  · intro hbad
    simp [authorize, hbad]
  · intro hcid hcl hrt
    simp [authorize, hcid, hnone hcl, hrt]
  · intro hcid hcl hrt hbadchal
    rcases Bool.or_eq_true_iff.mp hbadchal with h1 | h2
    · have h1f : truthy chal = false := by
        cases hy : truthy chal <;> simp_all
      simp [authorize, hcid, hnone hcl, hrt, h1f]
    · have hm : meth ≠ some "S256" := of_decide_eq_true h2
      simp [authorize, hcid, hnone hcl, hrt, hm]
  · intro hcid hcl hrt hchal hmeth
    simp [authorize, hcid, hnone hcl, hrt, hchal, hmeth]

theorem c5_authorize_characterization_witness :
    (truthy (some "c1") = true) ∧
    ((lookupStr [("c1", ClientRecord.mk "s1" [])] "c1").isSome = true) ∧
    authorize
        { clients := [("c1", ClientRecord.mk "s1" [])],
          authorization_codes := [], access_tokens := [] }
        100 "F" (some "c1") (some "https://client.example/cb") (some "code")
        (some "mcp:tools") (some "st8") (some "CHAL") (some "S256") =
      (.redirect (pyFStr (some "https://client.example/cb") ++ "?code=" ++ ("code_" ++ "F") ++
          stateSuffix (some "st8")),
       { clients := [("c1", ClientRecord.mk "s1" [])],
         authorization_codes :=
           insertStr [] ("code_" ++ "F")
             { client_id := "c1", redirect_uri := some "https://client.example/cb",
               scope := "mcp:tools", code_challenge := "CHAL",
               user_id := "user123", expires_at := 100 + 600, used := false },
         access_tokens := [] }) :=
  ⟨by decide, by decide,
   (c5_authorize_characterization
      { clients := [("c1", ClientRecord.mk "s1" [])],
        authorization_codes := [], access_tokens := [] }
      100 "F" (some "c1") (some "https://client.example/cb") (some "code")
      (some "mcp:tools") (some "st8") (some "CHAL") (some "S256")).2.2.2
     (by decide) (by decide) rfl (by decide) rfl⟩

/-- C6: every successful POST /oauth/token code exchange responds with
access_token, token_type "Bearer", expires_in 3600, a refresh_token, and the
scope taken unchanged from the redeemed code's record; the stored
access-token record expires at issuance time + 3600 seconds and carries the
user_id and scope of the code record, and the code is marked used. -/
theorem c6_token_success_shape
    (st : OAuthState) (now : Nat) (aR rR : String)
    (gt codeP cidP secP ruriP verP : Option String)
    (body : TokenSuccess) (st2 : OAuthState)
    (h : token st now aR rR gt codeP cidP secP ruriP verP = (.ok body, st2)) :
    ∃ cd : AuthCodeData,
      lookupStr st.authorization_codes (codeP.getD "") = some cd ∧
      body = { access_token := "mcp_" ++ aR, token_type := "Bearer", expires_in := 3600,
               refresh_token := "refresh_" ++ rR, scope := cd.scope } ∧
      lookupStr st2.access_tokens ("mcp_" ++ aR) =
        some { client_id := cidP.getD "", user_id := cd.user_id, scope := cd.scope,
               expires_at := now + 3600, refresh_token := "refresh_" ++ rR } ∧
      lookupStr st2.authorization_codes (codeP.getD "") = some { cd with used := true } := by
  unfold token at h
  split at h
  · exact absurd (congrArg Prod.fst h) (by simp)
  · split at h
    · exact absurd (congrArg Prod.fst h) (by simp)
    · split at h
      · exact absurd (congrArg Prod.fst h) (by simp)
      · rename_i cl hcl
        split at h
        · exact absurd (congrArg Prod.fst h) (by simp)
        · split at h
          · exact absurd (congrArg Prod.fst h) (by simp)
          · split at h
            · exact absurd (congrArg Prod.fst h) (by simp)
            · rename_i cd hcd
              split at h
              · exact absurd (congrArg Prod.fst h) (by simp)
              · split at h
                · exact absurd (congrArg Prod.fst h) (by simp)
                · simp only [Prod.mk.injEq, TokenResult.ok.injEq] at h
                  obtain ⟨hb, hs⟩ := h
                  refine ⟨cd, hcd, hb.symm, ?_, ?_⟩
                  · rw [← hs]
                    exact lookupStr_insertStr _ _ _
                  · rw [← hs]
                    exact lookupStr_insertStr _ _ _

theorem c6_token_success_shape_witness :
    ∃ cd : AuthCodeData,
      lookupStr [("code_k", AuthCodeData.mk "c1" (some "https://cb") "sc" "CH" "u7" 1000 false)]
          "code_k" = some cd ∧
      TokenSuccess.mk "mcp_A" "Bearer" 3600 "refresh_R" "sc" =
        { access_token := "mcp_" ++ "A", token_type := "Bearer", expires_in := 3600,
          refresh_token := "refresh_" ++ "R", scope := cd.scope } ∧
      lookupStr [("mcp_A", AccessTokenData.mk "c1" "u7" "sc" 3610 "refresh_R")]
          ("mcp_" ++ "A") =
        some { client_id := "c1", user_id := cd.user_id, scope := cd.scope,
               expires_at := 10 + 3600, refresh_token := "refresh_" ++ "R" } ∧
      lookupStr [("code_k", AuthCodeData.mk "c1" (some "https://cb") "sc" "CH" "u7" 1000 true),
                 ("code_k", AuthCodeData.mk "c1" (some "https://cb") "sc" "CH" "u7" 1000 false)]
          "code_k" = some { cd with used := true } :=
  c6_token_success_shape
    { clients := [("c1", ClientRecord.mk "s1" [])],
      authorization_codes :=
        [("code_k", AuthCodeData.mk "c1" (some "https://cb") "sc" "CH" "u7" 1000 false)],
      access_tokens := [] }
    10 "A" "R" (some "authorization_code") (some "code_k") (some "c1") (some "s1") none none
    (TokenSuccess.mk "mcp_A" "Bearer" 3600 "refresh_R" "sc")
    { clients := [("c1", ClientRecord.mk "s1" [])],
      authorization_codes :=
        [("code_k", AuthCodeData.mk "c1" (some "https://cb") "sc" "CH" "u7" 1000 true),
         ("code_k", AuthCodeData.mk "c1" (some "https://cb") "sc" "CH" "u7" 1000 false)],
      access_tokens := [("mcp_A", AccessTokenData.mk "c1" "u7" "sc" 3610 "refresh_R")] }
    (by decide)

/-- C1: for a POST /oauth/token code exchange from a valid client, the
result is invalid_grant (400) iff the supplied code is not found in the code
store (including absent/empty), already marked used, past its expires_at, or
issued to a different client_id; and after one successful redemption, a
redemption attempt of the same code (by any valid client) returns
invalid_grant. -/
theorem c1_invalid_grant_iff_and_single_use
    (st : OAuthState) (now : Nat) (aR rR : String)
    (cid : String) (cl : ClientRecord) (codeP ruriP verP : Option String)
    (hcl : lookupStr st.clients cid = some cl) (hcid : cid ≠ "") :
    ((token st now aR rR (some "authorization_code") codeP (some cid)
        (some cl.client_secret) ruriP verP).1 = TokenResult.err "invalid_grant" 400 ↔
      (match codeP with
       | none => True
       | some c =>
         c = "" ∨
         (match lookupStr st.authorization_codes c with
          | none => True
          | some cd => cd.used = true ∨ now > cd.expires_at ∨ cd.client_id ≠ cid)))
    ∧ (∀ (body : TokenSuccess) (st2 : OAuthState),
        token st now aR rR (some "authorization_code") codeP (some cid)
          (some cl.client_secret) ruriP verP = (.ok body, st2) →
        ∀ (now2 : Nat) (aR2 rR2 cid2 : String) (cl2 : ClientRecord)
          (ruriP2 verP2 : Option String),
          lookupStr st2.clients cid2 = some cl2 → cid2 ≠ "" →
          (token st2 now2 aR2 rR2 (some "authorization_code") codeP (some cid2)
            (some cl2.client_secret) ruriP2 verP2).1 = TokenResult.err "invalid_grant" 400) := by
  have htr : truthy (some cid) = true := by simp [truthy, hcid]
  constructor
  · cases codeP with
    | none => simp [token, htr, hcl, truthy, hcid]
    | some c =>
        by_cases hc : c = ""
        · subst hc
          simp [token, htr, hcl, truthy, hcid]
        · cases hcd : lookupStr st.authorization_codes c with
          | none => simp [token, htr, hcl, truthy, hcid, hc, hcd]
          | some cd =>
              by_cases hu : (cd.used || decide (now > cd.expires_at)) = true
              · rcases Bool.or_eq_true_iff.mp hu with h1 | h2
                · simp [token, htr, hcl, truthy, hcid, hc, hcd, hu, h1]
                · have h2' : now > cd.expires_at := of_decide_eq_true h2
                  simp [token, htr, hcl, truthy, hcid, hc, hcd, hu, h2']
              · have hu' : cd.used = false ∧ ¬ now > cd.expires_at := by
                  constructor
                  · cases hb : cd.used
                    · rfl
                    · exact absurd (by simp [hb]) hu
                  · intro hgt
                    exact hu (by simp [hgt])
                by_cases hm : cd.client_id = cid
                · simp [token, htr, hcl, truthy, hcid, hc, hcd, hu, hu', hm]
                · simp [token, htr, hcl, truthy, hcid, hc, hcd, hu, hu', hm]
  · intro body st2 h now2 aR2 rR2 cid2 cl2 ruriP2 verP2 hcl2 hcid2
    have htr2 : truthy (some cid2) = true := by simp [truthy, hcid2]
    unfold token at h
    split at h
    · exact absurd (congrArg Prod.fst h) (by simp)
    · split at h
      · exact absurd (congrArg Prod.fst h) (by simp)
      · split at h
        · exact absurd (congrArg Prod.fst h) (by simp)
        · rename_i cl1 hcl1
          split at h
          · exact absurd (congrArg Prod.fst h) (by simp)
          · split at h
            · exact absurd (congrArg Prod.fst h) (by simp)
            · rename_i hcode
              split at h
              · exact absurd (congrArg Prod.fst h) (by simp)
              · rename_i cd hcd
                split at h
                · exact absurd (congrArg Prod.fst h) (by simp)
                · split at h
                  · exact absurd (congrArg Prod.fst h) (by simp)
                  · simp only [Prod.mk.injEq, TokenResult.ok.injEq] at h
                    obtain ⟨hb, hs⟩ := h
                    have hused : lookupStr st2.authorization_codes (codeP.getD "") =
                        some { cd with used := true } := by
                      rw [← hs]
                      exact lookupStr_insertStr _ _ _
                    simp [token, htr2, hcl2, hcid2, truthy, hcode, hused]

theorem c1_invalid_grant_iff_and_single_use_witness :
    (lookupStr [("c1", ClientRecord.mk "s1" [])] "c1" = some (ClientRecord.mk "s1" [])) ∧
    ("c1" ≠ "") ∧
    ((token
        { clients := [("c1", ClientRecord.mk "s1" [])],
          authorization_codes :=
            [("code_u", AuthCodeData.mk "c1" none "sc" "CH" "u7" 1000 true)],
          access_tokens := [] }
        10 "A" "R" (some "authorization_code") (some "code_u") (some "c1")
        (some (ClientRecord.mk "s1" ([] : List String)).client_secret) none none).1 =
      TokenResult.err "invalid_grant" 400) :=
  ⟨by decide, by decide,
   (c1_invalid_grant_iff_and_single_use
      { clients := [("c1", ClientRecord.mk "s1" [])],
        authorization_codes :=
          [("code_u", AuthCodeData.mk "c1" none "sc" "CH" "u7" 1000 true)],
        access_tokens := [] }
      10 "A" "R" "c1" (ClientRecord.mk "s1" []) (some "code_u") none none
      (by decide) (by decide)).1.mpr (Or.inr (Or.inl rfl))⟩

/-- C4: session validation fails when the session id is unknown and when the
session is not authenticated; when the bound token's expires_at has passed
it attempts exactly one refresh if a refresh token exists — on success
rebinding the new token to the session in place, on failure leaving the
previously bound token unchanged and failing with a re-authentication
error — and fails with a token-expired error when no refresh token exists
(zero refresh attempts in every non-refresh path; the third result component
lists the refresh calls made). -/
theorem c4_validate_session_and_token
    (sessions : List (String × UserSession)) (refresh : OAuthToken → Option OAuthToken)
    (now : Nat) (sid : String) (hsid : sid ≠ "") :
    (lookupStr sessions sid = none →
       validate_session_and_token sessions refresh now (some sid) =
         (.error .sessionNotFound, sessions, []))
    ∧ (∀ s : UserSession, lookupStr sessions sid = some s → s.is_authenticated = false →
       validate_session_and_token sessions refresh now (some sid) =
         (.error .notAuthenticated, sessions, []))
    ∧ (∀ (s : UserSession) (tok : OAuthToken),
       lookupStr sessions sid = some s → s.is_authenticated = true →
       s.oauth_token = some tok → tokenIsExpired tok now = true →
       tok.refresh_token = none →
       validate_session_and_token sessions refresh now (some sid) =
         (.error .tokenExpired, sessions, []))
    ∧ (∀ (s : UserSession) (tok : OAuthToken) (rt : String),
       lookupStr sessions sid = some s → s.is_authenticated = true →
       s.oauth_token = some tok → tokenIsExpired tok now = true →
       tok.refresh_token = some rt → refresh tok = none →
       validate_session_and_token sessions refresh now (some sid) =
         (.error .refreshFailed, sessions, [tok]))
    ∧ (∀ (s : UserSession) (tok newTok : OAuthToken) (rt : String),
       lookupStr sessions sid = some s → s.is_authenticated = true →
       s.oauth_token = some tok → tokenIsExpired tok now = true →
       tok.refresh_token = some rt → refresh tok = some newTok →
       validate_session_and_token sessions refresh now (some sid) =
         (.ok ({ s with oauth_token := some newTok }, newTok),
          insertStr sessions sid { s with oauth_token := some newTok }, [tok])) := by
  have htr : truthy (some sid) = true := by simp [truthy, hsid]
  refine ⟨?_, ?_, ?_, ?_, ?_⟩
  · intro hnone
    simp [validate_session_and_token, htr, hsid, hnone]
  · intro s hs hauth
    simp [validate_session_and_token, htr, hsid, hs, hauth]
  · intro s tok hs hauth htok hexp hrt
    simp [validate_session_and_token, htr, hsid, hs, hauth, htok, hexp, hrt]
  · intro s tok rt hs hauth htok hexp hrt hrf
    simp [validate_session_and_token, htr, hsid, hs, hauth, htok, hexp, hrt, hrf]
  · intro s tok newTok rt hs hauth htok hexp hrt hrf
    simp [validate_session_and_token, htr, hsid, hs, hauth, htok, hexp, hrt, hrf]

theorem c4_validate_session_and_token_witness :
    ("sid1" ≠ "") ∧
    (lookupStr [("sid1", UserSession.mk "sid1" true
        (some (OAuthToken.mk "at0" (some "rt0") 50 "sc")))] "sid1" =
      some (UserSession.mk "sid1" true (some (OAuthToken.mk "at0" (some "rt0") 50 "sc")))) ∧
    (tokenIsExpired (OAuthToken.mk "at0" (some "rt0") 50 "sc") 100 = true) ∧
    validate_session_and_token
        [("sid1", UserSession.mk "sid1" true
          (some (OAuthToken.mk "at0" (some "rt0") 50 "sc")))]
        (fun _ => none) 100 (some "sid1") =
      (.error .refreshFailed,
       [("sid1", UserSession.mk "sid1" true
          (some (OAuthToken.mk "at0" (some "rt0") 50 "sc")))],
       [OAuthToken.mk "at0" (some "rt0") 50 "sc"]) :=
  ⟨by decide, by decide, by decide,
   (c4_validate_session_and_token
      [("sid1", UserSession.mk "sid1" true
        (some (OAuthToken.mk "at0" (some "rt0") 50 "sc")))]
      (fun _ => none) 100 "sid1" (by decide)).2.2.2.1
     (UserSession.mk "sid1" true (some (OAuthToken.mk "at0" (some "rt0") 50 "sc")))
     (OAuthToken.mk "at0" (some "rt0") 50 "sc") "rt0"
     (by decide) rfl rfl (by decide) rfl rfl⟩

end YTM
